import Mathlib

/-!
Verification of behavioural claims about the `req` scraper repository
(`req_scrapers`): the CTQ spider (`spiders/ctq_scraper.py`), the NEQ
confirmation spider (`spiders/neq_confirmation.py`), the item pipelines
(`pipelines.py`) and the proxy-rotation middlewares
(`middlewares.py`, `comprehensive_middleware.py`).

The Python functions are shallowly embedded as executable Lean
definitions.  Python strings are `String`, `str.strip()` is `pyStrip`,
`str.split(sep)` is `pySplit` (structural reimplementations that the
kernel can evaluate), `dict` values that may be absent are `Option`,
and code paths that swallow exceptions are modelled by explicit
branches that reproduce exactly the state the Python interpreter
leaves behind when the exception is raised (including assignments made
before the raising statement).
HTTP responses are abstracted to structures holding exactly the values
the spiders read off them with XPath.
-/

namespace Req

/-! ## Python string primitives

The byte-position implementations of `String.splitOn`, `String.trim`
and friends in core Lean do not reduce inside the kernel, so the
Python string operations are embedded as structural recursions over
`String.toList`, which evaluate by `decide`/`rfl`. -/

/-- ASCII whitespace recognised by Python `str.strip()`
(space, tab, newline, carriage return, vertical tab, form feed; the
scraped values are ASCII). -/
def isPySpace (c : Char) : Bool :=
  c.toNat = 32 || c.toNat = 9 || c.toNat = 10 || c.toNat = 13 ||
    c.toNat = 11 || c.toNat = 12

/-- Python `s.strip()`. -/
def pyStrip (s : String) : String :=
  String.mk (((s.toList.dropWhile isPySpace).reverse.dropWhile isPySpace).reverse)

/-- If `sep` is an initial run of `text`, the remainder of `text`;
otherwise `none`. -/
def dropSepHead : List Char → List Char → Option (List Char)
  | [], rest => some rest
  | _ :: _, [] => none
  | p :: ps, c :: cs => if p == c then dropSepHead ps cs else none

/-- Fuel-driven worker for `pySplit`: scan left to right, emitting the
accumulated segment whenever `sep` is an initial run of the remaining
text (non-overlapping, as Python splits).  The fuel is structural and
one unit larger than the text, which the scan always exhausts first. -/
def splitCharsAux (sep : List Char) : Nat → List Char → List Char → List (List Char)
  | 0, cur, _ => [cur.reverse]
  | Nat.succ fuel, cur, text =>
    match text with
    | [] => [cur.reverse]
    | c :: cs =>
      match dropSepHead sep text with
      | some rest => cur.reverse :: splitCharsAux sep fuel [] rest
      | none => splitCharsAux sep fuel (c :: cur) cs

/-- Python `s.split(sep)` for a non-empty `sep`. -/
def pySplit (s sep : String) : List String :=
  if sep = "" then [s]
  else (splitCharsAux sep.toList (s.toList.length + 1) [] s.toList).map String.mk

/-- Fuel-driven worker for `pyReplace`. -/
def replaceCharsAux (old new : List Char) : Nat → List Char → List Char
  | 0, text => text
  | Nat.succ fuel, text =>
    match text with
    | [] => []
    | c :: cs =>
      match dropSepHead old text with
      | some rest => new ++ replaceCharsAux old new fuel rest
      | none => c :: replaceCharsAux old new fuel cs

/-- Python `s.replace(old, new)` for a non-empty `old`
(left-to-right, non-overlapping). -/
def pyReplace (s old new : String) : String :=
  if old = "" then s
  else String.mk (replaceCharsAux old.toList new.toList (s.toList.length + 1) s.toList)

/-- ASCII lower-casing of one character (the header names this is
applied to are ASCII). -/
def lowerChar (c : Char) : Char :=
  if 65 ≤ c.toNat ∧ c.toNat ≤ 90 then Char.ofNat (c.toNat + 32) else c

/-- Python `s.lower()` on ASCII text. -/
def pyLower (s : String) : String := String.mk (s.toList.map lowerChar)

/-- Python `s.startswith(p)`. -/
def pyStartsWith (s p : String) : Bool := (dropSepHead p.toList s.toList).isSome

/-- Python `sep.join(xs)`. -/
def pyJoin (sep : String) (xs : List String) : String :=
  String.mk (List.intercalate sep.toList (xs.map String.toList))

/-- Number of non-overlapping occurrences of `sub` in `s`
(Python `s.count(sub)` for non-empty `sub`). -/
def pyCount (s sub : String) : Nat := (pySplit s sub).length - 1

/-- Python `sub in s` for a non-empty `sub`. -/
def hasSub (s sub : String) : Bool := (pySplit s sub).length != 1

/-- Python `s.strip(chars)`: remove leading and trailing characters
belonging to `cs`. -/
def pyStripChars (cs : List Char) (s : String) : String :=
  String.mk (((s.toList.dropWhile (cs.contains ·)).reverse.dropWhile (cs.contains ·)).reverse)

/-- The single-quote character, built from its code point. -/
def squoteChar : Char := Char.ofNat 39

/-- The double-quote character, built from its code point. -/
def dquoteChar : Char := Char.ofNat 34

/-- Python slice `s[2:-2]`. -/
def slice2m2 (s : String) : String :=
  let l := (s.toList.drop 2)
  String.mk (l.take (l.length - 2))

/-- Python truthiness-based defaulting `x or d` where `x` is an optional
string (`None` and `""` are falsy). -/
def orFalsy (x : Option String) (d : String) : String :=
  match x with
  | some s => if s = "" then d else s
  | none => d

/-- Python truthiness of an optional string (`if x:`). -/
def truthy (x : Option String) : Bool :=
  match x with
  | some s => s != ""
  | none => false

/-- Lookup in an association list used as a Python `dict`
(entries are prepended, so the first match is the most recent write). -/
def dictFind (d : List (String × String)) (k : String) : Option String :=
  (d.find? (fun p => p.1 = k)).map (fun p => p.2)

/-- Python `d.get(k, default)`. -/
def dictGetD (d : List (String × String)) (k default : String) : String :=
  (dictFind d k).getD default

/-! ## NEQ input iteration (`CtqScraperSpider._iter_neq_values`) -/

/-- Loop body of the generator in `_iter_neq_values`
(ctq_scraper.py lines 789-809): strip each raw value, drop empties,
drop values already seen, and while a resume value is pending skip
(but still record as seen) everything before it. -/
def iterNeqAux : List String → List String → Option String → List String
  | [], _, _ => []
  | raw :: rest, seen, pending =>
    let val := pyStrip raw
    if val = "" then iterNeqAux rest seen pending
    else if val ∈ seen then iterNeqAux rest seen pending
    else
      match pending with
      | some st =>
        if val = st then val :: iterNeqAux rest (val :: seen) none
        else iterNeqAux rest (val :: seen) (some st)
      | none => val :: iterNeqAux rest (val :: seen) none

/-- `CtqScraperSpider._iter_neq_values`: inline values first, then the
values loaded from the CSV file, deduplicated with optional resume. -/
def iterNeqValues (inlineNeqs fileVals : List String) (startNeq : Option String) : List String :=
  iterNeqAux (inlineNeqs ++ fileVals) [] startNeq

/-- The cleaned source sequence: every raw value stripped, empties
dropped, order preserved. -/
def cleanedSources (l : List String) : List String :=
  (l.map pyStrip).filter (fun v => v != "")

/-- First-occurrence deduplication: keep each distinct string once, at
the position of its first occurrence.  This is the specification-side
description of "deduplicated, first occurrence wins, in source order". -/
def dedupFirst : List String → List String
  | [] => []
  | x :: xs => x :: dedupFirst (xs.filter (fun y => y != x))
termination_by l => l.length
decreasing_by
  simp only [List.length_cons]
  exact Nat.lt_succ_of_le (List.length_filter_le _ _)

/-! ## Onclick-blob parsing (`extract_form_data`, `extract_onclick_formdata`) -/

/-- The follow-up form payload built by `CtqScraperSpider.extract_form_data`
(ctq_scraper.py lines 427-437).  The constant entry `mainForm_SUBMIT = "1"`
is omitted. -/
structure SecondRequestPayload where
  viewState : String
  leClientNo : String
  leContexte : String
  leOrderBy : String
  leOrderDir : String
  leContexteEstDejaDetermine : String
  leDdrSeq : String
  idcl : String
deriving Repr, DecidableEq

/-- The key/value-row loop of the onclick parsers: each row is
`row.replace(squote, "").split(",")` and must unpack into exactly two
fields, which are written into the `params` dict.  The Bool is `false`
when a row raised (`ValueError` on unpacking), in which case the rows
parsed before the raising one are kept in the returned list — exactly
the state the Python `params` dict is left in. -/
def parseRowsAcc : List String → List (String × String) → List (String × String) × Bool
  | [], acc => (acc, true)
  | r :: rest, acc =>
    match pySplit (pyReplace r (String.singleton squoteChar) "") "," with
    | [k, v] => parseRowsAcc rest ((k, v) :: acc)
    | _ => (acc, false)

/-- The `try` block of `extract_form_data` (ctq_scraper.py lines 407-416),
with the bare `except Exception: pass`: the result is the pair
`(params, target_id)` as the Python local variables stand after the
block, whether or not an exception was swallowed.  In particular a
failure inside the row loop keeps the rows parsed so far and the
already-assigned target id. -/
def parseOnclickState (s : String) : List (String × String) × Option String :=
  match (pySplit s "submitForm(").get? 1 with
  | none => ([], none)
  | some after =>
    let parts := (pySplit after ")").headD ""
    match pySplit parts ",null," with
    | [pre, post] =>
      match (pySplit pre ",").get? 1 with
      | none => ([], none)
      | some rawTarget =>
        let target := pyStripChars [squoteChar, dquoteChar] (pyStrip rawTarget)
        let rows := pySplit (slice2m2 (pyStrip post)) "],["
        ((parseRowsAcc rows []).1, some target)
    | _ => ([], none)

/-- `CtqScraperSpider.extract_onclick_formdata` (ctq_scraper.py lines
545-559): same grammar, but the whole parse is inside one `try` whose
handler returns `({}, None)`, so any failure — including one in the row
loop — discards everything. -/
def extractOnclickFormdata (s : String) : List (String × String) × Option String :=
  if hasSub s "submitForm(" = false then ([], none)
  else
    let after := (pySplit s "submitForm(").getD 1 ""
    let parts := (pySplit after ")").headD ""
    match pySplit parts ",null," with
    | [pre, post] =>
      match (pySplit pre ",").get? 1 with
      | none => ([], none)
      | some rawTarget =>
        let target := pyStripChars [squoteChar, dquoteChar] (pyStrip rawTarget)
        let rows := pySplit (slice2m2 (pyStrip post)) "],["
        match parseRowsAcc rows [] with
        | (acc, true) => (acc, some target)
        | (_, false) => ([], none)
    | _ => ([], none)

/-- The payload `extract_form_data` builds when every key falls back to
its documented default. -/
def defaultSecondPayload (vs : String) : SecondRequestPayload :=
  { viewState := vs
    leClientNo := "129540"
    leContexte := "PECVL"
    leOrderBy := ""
    leOrderDir := ""
    leContexteEstDejaDetermine := "oui"
    leDdrSeq := "0"
    idcl := "mainForm:j_id_z_7_2" }

/-- `CtqScraperSpider.extract_form_data` (ctq_scraper.py lines 401-439).
`onclick` is the (optional) onclick attribute of the first PECVL anchor,
`execution` the explicit view-state argument, `respViewState` the
view-state input read off the response as fallback. -/
def extractFormData (onclick : Option String) (execution respViewState : Option String) :
    SecondRequestPayload :=
  let pt :=
    match onclick with
    | none => (([] : List (String × String)), (none : Option String))
    | some s => if s = "" then ([], none) else parseOnclickState s
  let params := pt.1
  let targetId := pt.2
  let vs := orFalsy execution (orFalsy respViewState "1")
  { viewState := vs
    leClientNo := dictGetD params "leClientNo" "129540"
    leContexte := dictGetD params "leContexte" "PECVL"
    leOrderBy := dictGetD params "leOrderBy" ""
    leOrderDir := dictGetD params "leOrderDir" ""
    leContexteEstDejaDetermine := dictGetD params "leContexteEstDejaDetermine" "oui"
    leDdrSeq := dictGetD params "leDdrSeq" "0"
    idcl := orFalsy targetId "mainForm:j_id_z_7_2" }

/-- A concrete onclick handler whose row list has a malformed second
row: the target id and the first key/value pair parse, then the row
loop raises. -/
def badOnclickSample : String :=
  "submitForm(mainForm,TARGET,null,[[leClientNo,999],[bad]])"

/-! ## Proxy credential parsing -/

/-- A parsed proxy credential (`{"ip": ..., "user": ..., "pass": ...}`). -/
structure ProxyCred where
  ip : String
  user : String
  password : String
deriving Repr, DecidableEq

/-- `CtqScraperSpider.get_proxy_creds` (ctq_scraper.py lines 864-921),
acting on one pool entry: detect the separator by counting (3 commas →
comma layout, 3 colons → colon layout, otherwise try the colon split
and fall back to the comma split), then accept 4 fields as
authenticated, 2 fields as unauthenticated, anything else as the
literal address. -/
def getProxyCredsCtq (entry0 : String) : ProxyCred :=
  let entry := pyStrip entry0
  let colonCount := pyCount entry ":"
  let commaCount := pyCount entry ","
  let parts :=
    if commaCount = 3 then (pySplit entry ",").map pyStrip
    else if colonCount = 3 then (pySplit entry ":").map pyStrip
    else
      let pc := (pySplit entry ":").map pyStrip
      if pc.length = 4 then pc else (pySplit entry ",").map pyStrip
  match parts with
  | [ip, port, user, pw] => ⟨ip ++ ":" ++ port, user, pw⟩
  | [ip, port] => ⟨ip ++ ":" ++ port, "", ""⟩
  | _ => ⟨entry, "", ""⟩

/-- `ReqScraperSpider.get_proxy_creds` (neq_confirmation.py lines
258-267), acting on one pool entry: split on colons only; exactly four
fields are authenticated credentials, anything else is the literal
address with no auth. -/
def getProxyCredsConf (entry : String) : ProxyCred :=
  match pySplit entry ":" with
  | [ip, port, user, pw] => ⟨ip ++ ":" ++ port, user, pw⟩
  | _ => ⟨entry, "", ""⟩

/-- The stripped comma fields of a pool entry. -/
def commaParts (e : String) : List String := (pySplit (pyStrip e) ",").map pyStrip

/-- The stripped colon fields of a pool entry. -/
def colonParts (e : String) : List String := (pySplit (pyStrip e) ":").map pyStrip

/-! ## Proxy pool health state
(`ComprehensiveAntiDetectionMiddleware.get_available_proxy`,
`ProxyRotationMiddleware.get_next_proxy`) -/

/-- Per-proxy health entry: `sleep_until`/`blocked_until` timestamp and
`consecutive_errors` counter (the other bookkeeping fields of the
Python dicts play no role in selection). -/
structure ProxyHealth where
  sleepUntil : Nat
  consecErrors : Nat
deriving Repr, DecidableEq

/-- The middleware state: the fixed pool list, the health map (an
association list standing for the Python `defaultdict`; a missing key
means the default `⟨0, 0⟩`), and the round-robin cursor. -/
structure PoolState where
  proxyList : List String
  stats : List (String × ProxyHealth)
  currentIndex : Nat
deriving Repr, DecidableEq

/-- Health lookup with the `defaultdict` default. -/
def statsOf (stats : List (String × ProxyHealth)) (p : String) : ProxyHealth :=
  ((stats.find? (fun q => q.1 = p)).map (fun q => q.2)).getD ⟨0, 0⟩

/-- Indices of pool entries that are neither sleeping at time `t` nor at
or above the consecutive-error `threshold` (the availability loops at
comprehensive_middleware.py lines 95-103 and middlewares.py lines
133-141; the threshold is 3 resp. 5). -/
def availableIdx (s : PoolState) (t threshold : Nat) : List Nat :=
  (List.range s.proxyList.length).filter fun i =>
    let st := statsOf s.stats (s.proxyList.getD i "")
    decide (st.sleepUntil ≤ t) && decide (st.consecErrors < threshold)

/-- The `while current not in available` cursor walk: starting at
`start`, the first index of the cyclic sequence `start, start+1 % n, …`
that lies in `avail`.  Total via an `n`-step search; the Python loop
terminates for the same reason (a member of `avail` below `n` exists at
every call site). -/
def cyclicFind (n start : Nat) (avail : List Nat) : Nat :=
  match (List.range n).find? (fun k => decide ((start + k) % n ∈ avail)) with
  | some k => (start + k) % n
  | none => start % n

/-- `ComprehensiveAntiDetectionMiddleware.get_available_proxy`
(comprehensive_middleware.py lines 87-119): threshold 3; on exhaustion
reset every entry's counters (a reset health map is extensionally the
empty map, every lookup giving the default `⟨0, 0⟩`) and make only
index 0 available.  Returns the chosen proxy and the updated state. -/
def getAvailableProxy (s : PoolState) (t : Nat) : Option String × PoolState :=
  if s.proxyList.isEmpty then (none, s)
  else
    let avail := availableIdx s t 3
    let stats2 := if avail.isEmpty then [] else s.stats
    let avail2 := if avail.isEmpty then [0] else avail
    let idx := cyclicFind s.proxyList.length ((s.currentIndex + 1) % s.proxyList.length) avail2
    (some (s.proxyList.getD idx ""), { s with stats := stats2, currentIndex := idx })

/-- `ProxyRotationMiddleware.get_next_proxy` (middlewares.py lines
125-156): threshold 5; on exhaustion reset every entry and make every
index available again, so the cursor advance lands on the next
round-robin entry. -/
def getNextProxy (s : PoolState) (t : Nat) : Option String × PoolState :=
  if s.proxyList.isEmpty then (none, s)
  else
    let avail := availableIdx s t 5
    let stats2 := if avail.isEmpty then [] else s.stats
    let avail2 := if avail.isEmpty then List.range s.proxyList.length else avail
    let idx := cyclicFind s.proxyList.length ((s.currentIndex + 1) % s.proxyList.length) avail2
    (some (s.proxyList.getD idx ""), { s with stats := stats2, currentIndex := idx })

/-- A pool of two proxies, both sleeping until timestamp 10, cursor at
index 0. -/
def exhaustedPool : PoolState :=
  { proxyList := ["p0", "p1"]
    stats := [("p0", ⟨10, 0⟩), ("p1", ⟨10, 0⟩)]
    currentIndex := 0 }

/-! ## AI enrichment pipeline (`AIEnrichmentPipeline.process_item`) -/

/-- One contact object of the enrichment response
(first name, last name, title, source). -/
structure EnrichContact where
  firstName : String
  lastName : String
  title : String
  source : String
deriving Repr, DecidableEq

/-- The enrichment gateway's parsed response, as read by the pipeline. -/
structure EnrichedResult where
  phoneNumber : String
  phoneNumberSource : String
  companyWebsite : String
  reliabilityLevel : String
  contacts : List EnrichContact
  notes : String
deriving Repr, DecidableEq

/-- Outcome of the `self._enrich_fn(company_payload)` call:
`raised` models the `except BaseException` path; `value none` models a
falsy return (`or {}` turns it into an empty dict, every key read with
an empty default); `value (some r)` a dict with the schema fields. -/
inductive EnrichOutcome
  | raised
  | value (r : Option EnrichedResult)
deriving Repr, DecidableEq

/-- The item as seen through `ItemAdapter`: the base company fields the
pipeline reads plus the enrichment fields it writes. -/
structure PipelineItem where
  company : String
  address : String
  city : String
  state : String
  postalCode : String
  phone : String := ""
  website : String := ""
  phoneSource : String := ""
  reliability : String := ""
  firstName : String := ""
  lastName : String := ""
  title : String := ""
  contactSource : String := ""
  note : String := ""
deriving Repr, DecidableEq

/-- `AIEnrichmentPipeline.process_item` (pipelines.py lines 305-347).
`none` would mean the item is dropped from the stream; every Python
path executes `return item`, so the function is `some` everywhere:
on a disabled pipeline or a raising gateway the item passes unchanged,
otherwise the enrichment fields are copied onto it verbatim. -/
def aiProcessItem (enabled enrichFnLoaded : Bool) (outcome : EnrichOutcome)
    (item : PipelineItem) : Option PipelineItem :=
  if !(enabled && enrichFnLoaded) then some item
  else
    match outcome with
    | .raised => some item
    | .value r =>
      let enr := r.getD ⟨"", "", "", "", [], ""⟩
      let firstContact := enr.contacts.headD ⟨"", "", "", ""⟩
      some { item with
        phone := enr.phoneNumber
        website := enr.companyWebsite
        phoneSource := enr.phoneNumberSource
        reliability := enr.reliabilityLevel
        firstName := firstContact.firstName
        lastName := firstContact.lastName
        title := firstContact.title
        contactSource := firstContact.source
        note := enr.notes }

/-- Modelled from the spec: the phone gate the claim describes — the
empty string or `+` followed by 8 to 15 digits (`^\+\d{8,15}$`).
The code contains no such predicate; this definition exists only to
state the claim and its counterexample. -/
def claimPhoneOk (s : String) : Bool :=
  s = "" ||
    (pyStartsWith s "+" &&
      (let d := s.toList.drop 1
       8 ≤ d.length && d.length ≤ 15 &&
         d.all (fun c => 48 ≤ c.toNat && c.toNat ≤ 57)))

/-- A concrete input item for the pipeline. -/
def sampleItem : PipelineItem :=
  { company := "ACME Transport", address := "1 Rue A", city := "Montreal"
    state := "QC", postalCode := "H1A 1A1" }

/-- A concrete enrichment result whose phone number is neither empty
nor of the `+digits` shape. -/
def malformedPhoneEnrichment : EnrichedResult :=
  { phoneNumber := "514-555-0199"
    phoneNumberSource := "site"
    companyWebsite := "acme.example"
    reliabilityLevel := "10"
    contacts := []
    notes := "" }

/-! ## CSV NEQ-column lookup
(`CtqScraperSpider._load_neqs_from_file`, `ReqScraperSpider.__init__`) -/

/-- A CSV row as `csv.DictReader` presents it: header/value pairs in
column order. -/
def CsvRow : Type := List (String × String)

/-- The per-row lookup of `_load_neqs_from_file` (ctq_scraper.py lines
841-850): `row.get("NEQ") or next((v for k, v in row.items() if k and
k.lower().strip() == "neq"), None)`, then yield the stripped value when
non-empty. -/
def ctqRowNeq (row : CsvRow) : Option String :=
  let fallback : Option String :=
    ((row.find? fun p => p.1 != "" && pyStrip (pyLower p.1) = "neq").map (fun p => p.2)).bind
      fun v => if v = "" then none else some v
  let val : Option String :=
    match row.find? (fun p => p.1 = "NEQ") with
    | some p => if p.2 = "" then fallback else some p.2
    | none => fallback
  match val with
  | some v => let s := pyStrip v; if s = "" then none else some s
  | none => none

/-- `CtqScraperSpider._load_neqs_from_file` on the parsed rows. -/
def loadNeqsFromFile (rows : List CsvRow) : List String :=
  rows.filterMap ctqRowNeq

/-- The flexible column detection of `ReqScraperSpider.__init__`
(neq_confirmation.py lines 84-105): first a header whose
stripped-lowered form is in the accepted set, then any header
containing `"neq"`, then the sole column of a single-column CSV. -/
def findNeqColumn (fieldnames : List String) : Option String :=
  let accepted := ["neq_numbers", "neq", "neques", "req", "neqnumber", "neqs"]
  match fieldnames.find? (fun c => pyLower (pyStrip c) ∈ accepted) with
  | some c => some c
  | none =>
    match fieldnames.find? (fun c => hasSub (pyLower (pyStrip c)) "neq") with
    | some c => some c
    | none => if fieldnames.length = 1 then fieldnames.head? else none

/-- Value extraction once the confirmation spider has picked a column
(neq_confirmation.py lines 111-114): `(row.get(target_col) or
"").strip()`, kept when non-empty. -/
def confRowValue (col : String) (row : CsvRow) : Option String :=
  let raw := pyStrip (((row.find? (fun p => p.1 = col)).map (fun p => p.2)).getD "")
  if raw = "" then none else some raw

/-- The confirmation spider's CSV load: locate the column, then collect
that column's non-empty stripped values. -/
def loadNeqsConf (fieldnames : List String) (rows : List CsvRow) : List String :=
  match findNeqColumn fieldnames with
  | none => []
  | some col => rows.filterMap (confRowValue col)

/-! ## Confirmation spider result pipeline (`ReqScraperSpider`) -/

/-- The item yielded by the confirmation spider:
`{"NEQ": ..., "RBQ": ..., "CTQ": ...}`. -/
structure ConfirmationItem where
  NEQ : String
  RBQ : String
  CTQ : String
deriving Repr, DecidableEq

/-- The CTQ redirect page as read by `parse_ctq_redirect`
(neq_confirmation.py lines 161-174): only the `mainForm` action. -/
structure CtqRedirectPage where
  formAction : Option String
deriving Repr, DecidableEq

/-- The CTQ result page as read by `parse_ctq_result` (lines 176-186):
the `Erreur(s)` marker and the confirmation text next to the acronym. -/
structure CtqCheckPage where
  hasErreur : Bool
  acronymText : Option String
deriving Repr, DecidableEq

/-- The RBQ redirect page as read by `parse_rbq_redirect`
(lines 216-235). -/
structure RbqRedirectPage where
  formAction : Option String
deriving Repr, DecidableEq

/-- The RBQ result page as read by `parse_rbq_result` (lines 237-252):
presence of the results-page navigation element. -/
structure RbqResultPage where
  hasResultsNav : Bool
deriving Repr, DecidableEq

/-- `parse_ctq_result` of the confirmation spider: `"No"` on the error
marker, `"Yes"` on a matching confirmation text, `"No"` otherwise. -/
def parseCtqResultStr (neq : String) (p : CtqCheckPage) : String :=
  if p.hasErreur then "No"
  else if p.acronymText = some neq then "Yes"
  else "No"

/-- The RBQ flag of `parse_rbq_result`. -/
def rbqFlagOf (p : RbqResultPage) : String := if p.hasResultsNav then "Yes" else "No"

/-- `parse_rbq_result`: yield the item unless both checks are `"No"`. -/
def parseRbqResultItem (neq ctqResult : String) (p : RbqResultPage) : Option ConfirmationItem :=
  if rbqFlagOf p = "No" ∧ ctqResult = "No" then none
  else some ⟨neq, rbqFlagOf p, ctqResult⟩

/-- The `ctq_result` carried through the confirmation spider's meta:
`"No"` when the CTQ redirect page had no form action, the outcome of
`parse_ctq_result` otherwise. -/
def ctqResultOf (neq : String) (p1 : CtqRedirectPage) (p2 : CtqCheckPage) : String :=
  if truthy p1.formAction then parseCtqResultStr neq p2 else "No"

/-- The confirmation spider's whole per-NEQ chain, given the pages each
step receives: CTQ redirect → CTQ result → RBQ redirect → RBQ result.
A missing CTQ form action means `ctq_result = "No"`; a missing RBQ form
action short-circuits to yielding `{RBQ: "No"}` only when the CTQ check
succeeded. -/
def runConfirmation (neq : String) (p1 : CtqRedirectPage) (p2 : CtqCheckPage)
    (p3 : RbqRedirectPage) (p4 : RbqResultPage) : Option ConfirmationItem :=
  if truthy p3.formAction then parseRbqResultItem neq (ctqResultOf neq p1 p2) p4
  else if ctqResultOf neq p1 p2 = "Yes" then some ⟨neq, "No", "Yes"⟩ else none

/-! ## CTQ navigation state machine (`CtqScraperSpider`) -/

/-- The validity page as read by `check_validity` (ctq_scraper.py lines
248-399): status, body emptiness, the `javax.faces.ViewState` input,
the `mainForm` action, the `Erreur(s)` marker, the confirmation text,
the labelled chips ("extra values"), the VRAC anchor's onclick and the
PECVL anchor's onclick, plus the view-state input read (by id) inside
`extract_form_data` as fallback. -/
structure ValidityPage where
  status : Nat
  bodyEmpty : Bool
  viewState : Option String
  mainFormAction : Option String
  hasErreur : Bool
  acronymText : Option String
  extraValuesList : List String
  vracOnclick : Option String
  pecvlOnclick : Option String
  viewStateById : Option String
deriving Repr, DecidableEq

/-- The VRAC result page as read by `parse_vrac_result` (lines 561-666):
status and the four fixed-position cells of the `tableContenu` table. -/
structure VracPage where
  status : Nat
  cell1 : Option String
  cell2 : Option String
  cell3 : Option String
  cell4 : Option String
deriving Repr, DecidableEq

/-- The terminal detail page as read by `parse_ctq_result` /
`parse_ctq_result_with_vrac` (lines 441-544 and 668-770).  The `pays`
column (a regex scan of the address tail) is outside the claims under
verification and is not modelled. -/
structure DetailPage where
  status : Nat
  neqText : Option String
  nomText : Option String
  addressTexts : List String
  nirTexts : List String
  titreText : Option String
  categorieText : Option String
  dateInscriptionText : Option String
  dateMajText : Option String
  codeSecuriteText : Option String
  droitCirculationText : Option String
  droitExploiterText : Option String
  motifText : Option String
deriving Repr, DecidableEq

/-- The four VRAC fields of an output record. -/
structure VracFields where
  numero : String
  region : String
  camions : String
  courtier : String
deriving Repr, DecidableEq

/-- The all-empty VRAC fields the no-VRAC branch writes. -/
def emptyVrac : VracFields := ⟨"", "", "", ""⟩

/-- `extract_text` of the spider: `response.xpath(...).get(default="").strip()`. -/
def extractOpt (o : Option String) : String := pyStrip (o.getD "")

/-- The VRAC data dict built in `parse_vrac_result` (lines 595-600):
the four fixed-position cells, each extracted with the empty default
and stripped. -/
def extractVracData (vp : VracPage) : VracFields :=
  ⟨extractOpt vp.cell1, extractOpt vp.cell2, extractOpt vp.cell3, extractOpt vp.cell4⟩

/-- The meta bundle the VRAC branch carries to `parse_vrac_result`:
the pre-VRAC form action, the pre-extracted form payload and the
joined extra values. -/
structure VracMeta where
  ctqAction : String
  ctqFormdata : SecondRequestPayload
  extraValues : String
deriving Repr, DecidableEq

/-- Outcome of `check_validity`: terminal stop (no follow-up request,
no record), the VRAC sub-branch, or the direct detail branch. -/
inductive ValidityOutcome
  | stop
  | vracBranch (m : VracMeta)
  | directBranch (extraValues : String) (formdata : SecondRequestPayload)
deriving Repr, DecidableEq

/-- `normalize` of the terminal parsers: strip every line, drop empties. -/
def normalizeLines (ls : List String) : List String :=
  (ls.map pyStrip).filter (fun v => v != "")

/-- `check_validity` (ctq_scraper.py lines 248-399): stop on non-200,
empty body, missing/empty form action, the `Erreur(s)` marker, or a
confirmation text different from the requested NEQ; otherwise branch on
the presence of the VRAC anchor, carrying the extra values and (for
both branches) the payload pre-extracted from this page. -/
def checkValidity (neq : String) (p : ValidityPage) : ValidityOutcome :=
  if p.status ≠ 200 then .stop
  else if p.bodyEmpty then .stop
  else
    let redirectExecution := orFalsy p.viewState "e1s2"
    if truthy p.mainFormAction = false then .stop
    else if p.hasErreur then .stop
    else if p.acronymText ≠ some neq then .stop
    else
      let extras := pyJoin ","
        ((p.extraValuesList.map pyStrip).filter (fun v => v != ""))
      let fd := extractFormData p.pecvlOnclick (some redirectExecution) p.viewStateById
      match p.vracOnclick with
      | some _ => .vracBranch ⟨(p.mainFormAction).getD "", fd, extras⟩
      | none => .directBranch extras fd

/-- The address decomposition of the terminal parsers (lines 492-506):
line 1 is the street; line 2 is split on `(` and `)` into city,
province and postal code.  The `try`/`except Exception: pass` keeps
every assignment made before the failing subscript, so a line 2 with
no `(` still sets the city, and one with no `)` sets city and
province. -/
def parseAddressFields (lines : List String) : String × String × String × String :=
  let adresse := lines.headD ""
  if lines.length > 1 then
    let parts := pySplit (lines.getD 1 "") "("
    let ville := pyStrip (parts.headD "")
    match parts.get? 1 with
    | none => (adresse, ville, "", "")
    | some p1 =>
      let sub := pySplit p1 ")"
      let province := pyStrip (sub.headD "")
      match sub.get? 1 with
      | none => (adresse, ville, province, "")
      | some cp => (adresse, ville, province, pyStrip cp)
  else (adresse, "", "", "")

/-- `_format_excel_text` (lines 966-971): the identity on strings
(empty stays empty, anything else is returned unchanged). -/
def formatExcelText (s : String) : String := if s = "" then "" else s

/-- The output record of the CTQ spider (the `base_item` dict of the
terminal parsers, without the unmodelled `pays` column). -/
structure CompanyRecord where
  neq : String
  nom : String
  full_address : String
  adresse : String
  ville : String
  province : String
  code_postal : String
  nir : String
  titre : String
  categorie_transport : String
  date_inscription : String
  date_prochaine_maj : String
  code_securite : String
  droit_circulation : String
  droit_exploiter : String
  motif : String
  extra_values : String
  vrac_numero_inscription : String
  vrac_region_exploitation : String
  vrac_nombre_camions : String
  vrac_nom_courtier : String
deriving Repr, DecidableEq

/-- The `base_item` built by `parse_ctq_result` and
`parse_ctq_result_with_vrac` from the detail page, with the given VRAC
fields merged in (`{}` update order makes the two parsers agree on
every shared key). -/
def buildBaseRecord (neq extraValues : String) (dp : DetailPage) (vrac : VracFields) :
    CompanyRecord :=
  let lines := normalizeLines dp.addressTexts
  let afields := parseAddressFields lines
  let neqExtract := extractOpt dp.neqText
  { neq := if neqExtract = "" then neq else neqExtract
    nom := extractOpt dp.nomText
    full_address := pyJoin " " lines
    adresse := afields.1
    ville := afields.2.1
    province := afields.2.2.1
    code_postal := afields.2.2.2
    nir := ((dp.nirTexts.map pyStrip).filter (fun v => pyStartsWith v "R-")).headD ""
    titre := extractOpt dp.titreText
    categorie_transport := extractOpt dp.categorieText
    date_inscription := formatExcelText (extractOpt dp.dateInscriptionText)
    date_prochaine_maj := formatExcelText (extractOpt dp.dateMajText)
    code_securite := extractOpt dp.codeSecuriteText
    droit_circulation := extractOpt dp.droitCirculationText
    droit_exploiter := extractOpt dp.droitExploiterText
    motif := extractOpt dp.motifText
    extra_values := extraValues
    vrac_numero_inscription := vrac.numero
    vrac_region_exploitation := vrac.region
    vrac_nombre_camions := vrac.camions
    vrac_nom_courtier := vrac.courtier }

/-- The minimal item `parse_vrac_result` yields when the carried CTQ
action is falsy (lines 643-666): every base field empty, the requested
NEQ, and the VRAC data. -/
def minimalVracItem (neq : String) (vrac : VracFields) : CompanyRecord :=
  { neq := neq, nom := "", full_address := "", adresse := "", ville := ""
    province := "", code_postal := "", nir := "", titre := ""
    categorie_transport := "", date_inscription := "", date_prochaine_maj := ""
    code_securite := "", droit_circulation := "", droit_exploiter := ""
    motif := "", extra_values := ""
    vrac_numero_inscription := vrac.numero
    vrac_region_exploitation := vrac.region
    vrac_nombre_camions := vrac.camions
    vrac_nom_courtier := vrac.courtier }

/-- The CTQ spider's per-NEQ chain from the validity check to the
terminal parse, given the pages each request receives: the record the
chain emits, or `none`.  (`parse_vrac_result` stops on a non-200 VRAC
page; both terminal parsers stop on a non-200 detail page.) -/
def runCtq (neq : String) (vp : ValidityPage) (vracP : VracPage) (dp : DetailPage) :
    Option CompanyRecord :=
  match checkValidity neq vp with
  | .stop => none
  | .directBranch extras _ =>
    if dp.status ≠ 200 then none
    else some (buildBaseRecord neq extras dp emptyVrac)
  | .vracBranch m =>
    if vracP.status ≠ 200 then none
    else
      let vracData := extractVracData vracP
      if m.ctqAction = "" then some (minimalVracItem neq vracData)
      else if dp.status ≠ 200 then none
      else some (buildBaseRecord neq m.extraValues dp vracData)

/-- Whether `check_validity` took the VRAC branch. -/
def tookVrac (neq : String) (vp : ValidityPage) : Bool :=
  match checkValidity neq vp with
  | .vracBranch _ => true
  | _ => false

/-- The four VRAC fields of a record. -/
def vracOf (r : CompanyRecord) : VracFields :=
  ⟨r.vrac_numero_inscription, r.vrac_region_exploitation,
   r.vrac_nombre_camions, r.vrac_nom_courtier⟩

/-! ## Concrete pages and states used to instantiate the theorems -/

/-- A detail page whose address block is the two-line scenario of the
spec; every other extractable value absent. -/
def detailPageC6 : DetailPage :=
  { status := 200, neqText := none, nomText := none
    addressTexts := ["123 Main St", "Montreal (QC) H1A 1A1"]
    nirTexts := [], titreText := none, categorieText := none
    dateInscriptionText := none, dateMajText := none
    codeSecuriteText := none, droitCirculationText := none
    droitExploiterText := none, motifText := none }

/-- A validity page that passes every check for NEQ `"1160000000"` and
has no VRAC anchor: the direct detail branch. -/
def validityDirectPage : ValidityPage :=
  { status := 200, bodyEmpty := false, viewState := some "e1s2"
    mainFormAction := some "/pes2/dossierclient", hasErreur := false
    acronymText := some "1160000000", extraValuesList := []
    vracOnclick := none, pecvlOnclick := none, viewStateById := none }

/-- A validity page carrying the explicit error marker. -/
def validityErrPage : ValidityPage :=
  { status := 200, bodyEmpty := false, viewState := some "e1s2"
    mainFormAction := some "/pes2/dossierclient", hasErreur := true
    acronymText := some "0000", extraValuesList := []
    vracOnclick := none, pecvlOnclick := none, viewStateById := none }

/-- A VRAC result page with four populated cells. -/
def vracPageSample : VracPage :=
  { status := 200, cell1 := some "R-123456", cell2 := some "Region 06"
    cell3 := some "5", cell4 := some "Courtier Inc" }

/-- A pool of two healthy proxies, cursor at index 0. -/
def healthyPool : PoolState :=
  { proxyList := ["q0", "q1"], stats := [], currentIndex := 0 }

/-! ## Supporting lemmas -/

theorem listLen4 (l : List String) (h : l.length = 4) :
    l = [l.getD 0 "", l.getD 1 "", l.getD 2 "", l.getD 3 ""] := by
  match l with
  | [a, b, c, d] => rfl
  | [] | [_] | [_, _] | [_, _, _] => simp at h
  | _ :: _ :: _ :: _ :: _ :: _ => simp at h

theorem listLen2 (l : List String) (h : l.length = 2) :
    l = [l.getD 0 "", l.getD 1 ""] := by
  match l with
  | [a, b] => rfl
  | [] | [_] => simp at h
  | _ :: _ :: _ :: _ => simp at h

theorem mem_dedupFirst : ∀ (l : List String) (x : String), x ∈ dedupFirst l → x ∈ l
  | [], x, h => by simp [dedupFirst] at h
  | y :: ys, x, h => by
    rw [dedupFirst] at h
    rcases List.mem_cons.mp h with h1 | h2
    · exact h1 ▸ List.mem_cons_self _ _
    · exact List.mem_cons_of_mem _ (List.mem_of_mem_filter (mem_dedupFirst _ x h2))
termination_by l => l.length
decreasing_by
  simp only [List.length_cons]
  exact Nat.lt_succ_of_le (List.length_filter_le _ _)

theorem dedupFirst_nodup : ∀ (l : List String), (dedupFirst l).Nodup
  | [] => by simp [dedupFirst]
  | y :: ys => by
    rw [dedupFirst]
    refine List.nodup_cons.mpr ⟨fun hmem => ?_, dedupFirst_nodup _⟩
    have hy := List.of_mem_filter (mem_dedupFirst _ _ hmem)
    simp at hy
termination_by l => l.length
decreasing_by
  simp only [List.length_cons]
  exact Nat.lt_succ_of_le (List.length_filter_le _ _)

theorem iterNeqAux_none_eq :
    ∀ (l seen : List String),
      iterNeqAux l seen none =
        dedupFirst ((cleanedSources l).filter (fun v => decide (v ∉ seen))) := by
  intro l
  induction l with
  | nil => intro seen; simp [iterNeqAux, cleanedSources, dedupFirst]
  | cons raw rest ih =>
    intro seen
    by_cases hv : pyStrip raw = ""
    · simpa [iterNeqAux, hv, cleanedSources] using ih seen
    · by_cases hs : pyStrip raw ∈ seen
      · simpa [iterNeqAux, hv, hs, cleanedSources] using ih seen
      · simp only [iterNeqAux, hv, hs, if_false, if_true, cleanedSources,
          List.map_cons, List.filter_cons]
        simp only [bne_iff_ne, ne_eq, hv, not_false_eq_true, decide_True,
          if_true, hs, decide_not, decide_False, Bool.not_false]
        rw [List.filter_cons, if_pos (by simp [hs])]
        rw [dedupFirst]
        rw [ih (pyStrip raw :: seen)]
        congr 1
        rw [List.filter_filter]
        simp only [cleanedSources]
        congr 1
        apply List.filter_congr
        intro a _
        by_cases ha : a = pyStrip raw <;> by_cases hb : a ∈ seen <;>
          simp [ha, hb, List.mem_cons]

/-! ## Claim theorems -/

/-- C1: for every input consisting of an inline NEQ list and/or a CSV
file, the sequence of NEQs the spider processes is exactly the cleaned
concatenation of the sources (inline values before file values) with
every repeated value removed in favour of its first occurrence; in
particular it contains each distinct NEQ string at most once, so at
most one record per distinct NEQ can be produced downstream. -/
theorem c1_neq_sequence_dedup_first_occurrence (inlineNeqs fileVals : List String) :
    iterNeqValues inlineNeqs fileVals none =
      dedupFirst (cleanedSources (inlineNeqs ++ fileVals)) ∧
    (iterNeqValues inlineNeqs fileVals none).Nodup := by
  have h2 : iterNeqValues inlineNeqs fileVals none
      = dedupFirst (cleanedSources (inlineNeqs ++ fileVals)) := by
    rw [iterNeqValues, iterNeqAux_none_eq (inlineNeqs ++ fileVals) []]
    simp
  exact ⟨h2, h2 ▸ dedupFirst_nodup _⟩

/-- C3 counterexample: the enrichment pipeline emits (returns, rather
than drops) an item whose enriched phone number `"514-555-0199"`
matches neither the empty string nor `^\+\d{8,15}$`; no drop happens
anywhere in `process_item`. -/
theorem c3_counterexample_malformed_phone_emitted :
    (aiProcessItem true true (.value (some malformedPhoneEnrichment)) sampleItem).isSome = true ∧
    claimPhoneOk
      (((aiProcessItem true true (.value (some malformedPhoneEnrichment)) sampleItem).getD
          sampleItem).phone) = false := by
  decide

/-- C3 amended: `AIEnrichmentPipeline.process_item` never drops a
record — every path returns the item — and when enrichment succeeds the
enriched phone number is copied onto the item verbatim, whatever its
shape; no phone-format validation exists in the pipeline. -/
theorem c3_pipeline_always_emits (en ld : Bool) (oc : EnrichOutcome)
    (it : PipelineItem) (enr : EnrichedResult) :
    (aiProcessItem en ld oc it).isSome = true ∧
    ((aiProcessItem true true (.value (some enr)) it).getD it).phone = enr.phoneNumber := by
  constructor
  · unfold aiProcessItem
    split
    · simp
    · cases oc with
      | raised => simp
      | value r => simp
  · simp [aiProcessItem]

/-- C6: the terminal parse takes line 1 of the address block as the
street and splits line 2 on the parentheses into city, province and
postal code; on the two-line block
`["123 Main St", "Montreal (QC) H1A 1A1"]` this yields
`adresse="123 Main St"`, `ville="Montreal"`, `province="QC"`,
`code_postal="H1A 1A1"`, both for the standalone decomposition and for
the record built from a detail page holding that block. -/
theorem c6_address_decomposition :
    parseAddressFields ["123 Main St", "Montreal (QC) H1A 1A1"] =
      ("123 Main St", "Montreal", "QC", "H1A 1A1") ∧
    (buildBaseRecord "1160000000" "" detailPageC6 emptyVrac).adresse = "123 Main St" ∧
    (buildBaseRecord "1160000000" "" detailPageC6 emptyVrac).ville = "Montreal" ∧
    (buildBaseRecord "1160000000" "" detailPageC6 emptyVrac).province = "QC" ∧
    (buildBaseRecord "1160000000" "" detailPageC6 emptyVrac).code_postal = "H1A 1A1" := by
  refine ⟨rfl, rfl, rfl, rfl, rfl⟩

/-- C5: at the validity-check step, a page carrying the explicit
`Erreur(s)` marker, or whose displayed confirmation NEQ differs from
the requested one, is terminal: `check_validity` issues no follow-up
request (so no retry can occur) and the chain emits no record. -/
theorem c5_error_or_mismatch_terminal (neq : String) (vp : ValidityPage)
    (vracP : VracPage) (dp : DetailPage)
    (h : vp.hasErreur = true ∨ vp.acronymText ≠ some neq) :
    checkValidity neq vp = .stop ∧ runCtq neq vp vracP dp = none := by
  have hcv : checkValidity neq vp = .stop := by
    unfold checkValidity
    split_ifs with h1 h2 h3 h4 h5
    · rfl
    · rfl
    · rfl
    · rfl
    · rfl
    · exfalso
      rcases h with h | h
      · exact h4 (by simp [h])
      · exact h5 h
  refine ⟨hcv, ?_⟩
  unfold runCtq
  rw [hcv]

/-- C5 witness: a concrete error-marker page stops the chain. -/
theorem c5_witness :
    checkValidity "0000" validityErrPage = .stop ∧
    runCtq "0000" validityErrPage vracPageSample detailPageC6 = none :=
  c5_error_or_mismatch_terminal "0000" validityErrPage vracPageSample detailPageC6
    (Or.inl (by decide))

/-- C2: every record the CTQ chain emits has its four VRAC fields equal
to the four extracted cells of the VRAC result table when the state
machine took the VRAC branch, and all four equal to the empty string
when it did not — never a mix of the two origins. -/
theorem c2_vrac_fields_all_or_nothing (neq : String) (vp : ValidityPage)
    (vracP : VracPage) (dp : DetailPage) (r : CompanyRecord)
    (h : runCtq neq vp vracP dp = some r) :
    vracOf r = (if tookVrac neq vp then extractVracData vracP else emptyVrac) := by
  unfold runCtq at h
  unfold tookVrac
  cases hcv : checkValidity neq vp with
  | stop => rw [hcv] at h; exact absurd h (by simp)
  | directBranch extras fd =>
    rw [hcv] at h
    simp only at h
    by_cases hst : dp.status ≠ 200
    · rw [if_pos hst] at h; exact absurd h (by simp)
    · rw [if_neg hst] at h
      have hr := Option.some.inj h
      simp only
      rw [← hr]
      rfl
  | vracBranch m =>
    rw [hcv] at h
    simp only at h ⊢
    by_cases hv : vracP.status ≠ 200
    · rw [if_pos hv] at h; exact absurd h (by simp)
    · rw [if_neg hv] at h
      by_cases hact : m.ctqAction = ""
      · rw [if_pos hact] at h
        have hr := Option.some.inj h
        rw [← hr]; rfl
      · rw [if_neg hact] at h
        by_cases hst : dp.status ≠ 200
        · rw [if_pos hst] at h; exact absurd h (by simp)
        · rw [if_neg hst] at h
          have hr := Option.some.inj h
          rw [← hr]; rfl

/-- C2 witness: the direct branch on a concrete page set emits a record
whose VRAC fields are the empty-string quadruple. -/
theorem c2_witness :
    vracOf (buildBaseRecord "1160000000" "" detailPageC6 emptyVrac) =
      (if tookVrac "1160000000" validityDirectPage then extractVracData vracPageSample
       else emptyVrac) :=
  c2_vrac_fields_all_or_nothing "1160000000" validityDirectPage vracPageSample detailPageC6
    (buildBaseRecord "1160000000" "" detailPageC6 emptyVrac) (by decide)

/-- C10: every item the confirmation spider yields has `CTQ = "Yes"` or
`RBQ = "Yes"` (a double-`"No"` item is never emitted), and when the RBQ
results page is absent an item appears only with `CTQ = "Yes"` and
`RBQ = "No"`. -/
theorem c10_item_requires_some_yes (neq : String) (p1 : CtqRedirectPage)
    (p2 : CtqCheckPage) (p3 : RbqRedirectPage) (p4 : RbqResultPage)
    (i : ConfirmationItem)
    (h : runConfirmation neq p1 p2 p3 p4 = some i) :
    (i.CTQ = "Yes" ∨ i.RBQ = "Yes") ∧
    (truthy p3.formAction = false → i.CTQ = "Yes" ∧ i.RBQ = "No") := by
  have hbin : ctqResultOf neq p1 p2 = "Yes" ∨ ctqResultOf neq p1 p2 = "No" := by
    unfold ctqResultOf parseCtqResultStr
    split_ifs <;> simp
  unfold runConfirmation at h
  by_cases h3 : truthy p3.formAction
  · rw [if_pos h3] at h
    unfold parseRbqResultItem at h
    refine ⟨?_, fun hfalse => absurd h3 (by simp [hfalse])⟩
    split_ifs at h with hcond
    rw [← Option.some.inj h]
    simp only
    cases hnav : p4.hasResultsNav with
    | true => right; simp [rbqFlagOf, hnav]
    | false =>
      left
      rcases hbin with hb | hb
      · exact hb
      · exact absurd ⟨by simp [rbqFlagOf, hnav], hb⟩ hcond
  · rw [if_neg h3] at h
    split_ifs at h with hyes
    rw [← Option.some.inj h]
    exact ⟨Or.inl rfl, fun _ => ⟨rfl, rfl⟩⟩

/-- C10 witness: CTQ confirmed, RBQ redirect absent — the yielded item
is `{NEQ, RBQ := "No", CTQ := "Yes"}`. -/
theorem c10_witness :
    (ConfirmationItem.CTQ ⟨"123", "No", "Yes"⟩ = "Yes" ∨
       ConfirmationItem.RBQ ⟨"123", "No", "Yes"⟩ = "Yes") ∧
    (truthy (RbqRedirectPage.formAction ⟨none⟩) = false →
       ConfirmationItem.CTQ ⟨"123", "No", "Yes"⟩ = "Yes" ∧
       ConfirmationItem.RBQ ⟨"123", "No", "Yes"⟩ = "No") :=
  c10_item_requires_some_yes "123" ⟨some "/recherche"⟩ ⟨false, some "123"⟩ ⟨none⟩ ⟨true⟩
    ⟨"123", "No", "Yes"⟩ (by decide)

theorem get1_none_of_hasSub_false (s sub : String) (h : hasSub s sub = false) :
    (pySplit s sub).get? 1 = none := by
  unfold hasSub at h
  have hlen : (pySplit s sub).length = 1 := by simpa using h
  rw [List.get?_eq_none]
  omega

theorem parseOnclickState_no_marker (s : String)
    (h : (pySplit s "submitForm(").get? 1 = none) :
    parseOnclickState s = ([], none) := by
  unfold parseOnclickState
  rw [h]

theorem extractFormData_of_parse_empty (s : String) (exec rvs : Option String)
    (hp : s = "" ∨ parseOnclickState s = ([], none)) :
    extractFormData (some s) exec rvs = defaultSecondPayload (orFalsy exec (orFalsy rvs "1")) := by
  have hpt : (if s = "" then (([] : List (String × String)), (none : Option String))
      else parseOnclickState s) = ([], none) := by
    rcases hp with hp | hp
    · rw [if_pos hp]
    · split_ifs <;> simp [hp]
  unfold extractFormData
  simp only [hpt]
  simp [defaultSecondPayload, dictGetD, dictFind, orFalsy]

theorem extractOnclick_failure_empty (s : String)
    (h2 : (extractOnclickFormdata s).2 = none) :
    (extractOnclickFormdata s).1 = [] := by
  unfold extractOnclickFormdata at h2 ⊢
  by_cases hns : hasSub s "submitForm(" = false
  · rw [if_pos hns]
  · rw [if_neg hns] at h2 ⊢
    simp only at h2 ⊢
    revert h2
    generalize pySplit ((pySplit ((pySplit s "submitForm(").getD 1 "") ")").headD "") ",null," = S
    rcases S with _ | ⟨pre, S2⟩
    · intro _; rfl
    rcases S2 with _ | ⟨post, S3⟩
    · intro _; rfl
    rcases S3 with _ | ⟨x, S4⟩
    · simp only
      cases hg : (pySplit pre ",").get? 1 with
      | none => intro _; rfl
      | some rawT =>
        simp only
        rcases hrows : parseRowsAcc (pySplit (slice2m2 (pyStrip post)) "],[") [] with ⟨acc, b⟩
        cases b
        · intro _; rfl
        · intro h2; simp at h2
    · intro _; rfl

/-- C7 counterexample: on the onclick handler
`submitForm(mainForm,TARGET,null,[[leClientNo,999],[bad]])` the row
loop of `extract_form_data` raises after the target id and the first
key/value pair were assigned; the resulting payload keeps
`leClientNo = "999"` and target component `"TARGET"` instead of the
documented defaults, so a parse failure does not yield empty params and
defaults. -/
theorem c7_counterexample_onclick_rows_kept :
    extractFormData (some badOnclickSample) (some "e1s2") none ≠ defaultSecondPayload "e1s2" ∧
    (extractFormData (some badOnclickSample) (some "e1s2") none).leClientNo = "999" ∧
    (extractFormData (some badOnclickSample) (some "e1s2") none).idcl = "TARGET" := by
  refine ⟨?_, by decide, by decide⟩
  decide

/-- C7 amended: the onclick-blob parsers are total (they never raise).
`extract_onclick_formdata` returns empty params and no target id on any
parse failure — whenever it produces no target id its parameter dict is
empty — and when the handler string lacks the `submitForm(` marker both
parsers fall back fully: `extract_form_data` builds the payload
entirely from the documented defaults.  (A failure inside the key/value
row loop of `extract_form_data`, however, keeps the already-parsed rows
and target id, as the counterexample shows.) -/
theorem c7_onclick_parsers_fallback (s : String) (exec rvs : Option String) :
    (hasSub s "submitForm(" = false →
        extractFormData (some s) exec rvs =
          defaultSecondPayload (orFalsy exec (orFalsy rvs "1")) ∧
        extractOnclickFormdata s = ([], none)) ∧
    ((extractOnclickFormdata s).2 = none → (extractOnclickFormdata s).1 = []) := by
  constructor
  · intro hns
    refine ⟨extractFormData_of_parse_empty s exec rvs
      (Or.inr (parseOnclickState_no_marker s (get1_none_of_hasSub_false s _ hns))), ?_⟩
    unfold extractOnclickFormdata
    rw [if_pos hns]
  · exact extractOnclick_failure_empty s

/-- C7 witness: a handler with no `submitForm(` marker produces the
all-defaults payload and the empty parse. -/
theorem c7_witness :
    (extractFormData (some "window.open(x)") (some "e1s2") none =
       defaultSecondPayload (orFalsy (some "e1s2") (orFalsy none "1")) ∧
     extractOnclickFormdata "window.open(x)" = ([], none)) ∧
    (extractOnclickFormdata "window.open(x)").1 = [] :=
  ⟨(c7_onclick_parsers_fallback "window.open(x)" (some "e1s2") none).1 (by decide),
   (c7_onclick_parsers_fallback "window.open(x)" (some "e1s2") none).2 (by decide)⟩

theorem splitCharsAux_ne_nil (sep : List Char) :
    ∀ (fuel : Nat) (cur text : List Char), splitCharsAux sep fuel cur text ≠ [] := by
  intro fuel
  induction fuel with
  | zero => intro cur text; simp [splitCharsAux]
  | succ n ih =>
    intro cur text
    unfold splitCharsAux
    match text with
    | [] => simp
    | c :: cs =>
      cases dropSepHead sep (c :: cs) with
      | some rest => simp
      | none => simpa using ih (c :: cur) cs

theorem pySplit_length_eq (s sep : String) : (pySplit s sep).length = pyCount s sep + 1 := by
  have hne : pySplit s sep ≠ [] := by
    unfold pySplit
    split_ifs
    · simp
    · simpa using splitCharsAux_ne_nil sep.toList _ [] s.toList
  have hpos : 0 < (pySplit s sep).length := List.length_pos.mpr hne
  unfold pyCount
  omega

/-- C8 counterexample: the confirmation spider's credential parser
does not accept the comma layout — a well-formed
`ip,port,user,pass` entry is returned as a literal address with no
auth, not as authenticated credentials. -/
theorem c8_counterexample_conf_rejects_comma :
    getProxyCredsConf "10.0.0.1,3128,alice,secret" =
      ⟨"10.0.0.1,3128,alice,secret", "", ""⟩ ∧
    (getProxyCredsConf "10.0.0.1,3128,alice,secret").user ≠ "alice" := by
  refine ⟨by decide, by decide⟩

/-- C8 amended: both parsers are total.  The ctq spider's
`get_proxy_creds` accepts both the comma and the colon 4-field layout
(auto-detected by separator count), accepts a 2-field comma entry as an
unauthenticated `ip:port` credential, and returns any other malformed
entry as the literal (stripped) address with empty username and
password — a 2-field colon entry falls under that literal case, which
is the same unauthenticated `ip:port` credential.  The confirmation
spider's `get_proxy_creds` accepts only the colon layout and returns
every other entry, comma layouts included, as the literal address with
no auth. -/
theorem c8_cred_layouts (e : String) :
    (pyCount (pyStrip e) "," = 3 →
       getProxyCredsCtq e =
         ⟨(commaParts e).getD 0 "" ++ ":" ++ (commaParts e).getD 1 "",
          (commaParts e).getD 2 "", (commaParts e).getD 3 ""⟩) ∧
    (pyCount (pyStrip e) "," ≠ 3 → pyCount (pyStrip e) ":" = 3 →
       getProxyCredsCtq e =
         ⟨(colonParts e).getD 0 "" ++ ":" ++ (colonParts e).getD 1 "",
          (colonParts e).getD 2 "", (colonParts e).getD 3 ""⟩) ∧
    (pyCount (pyStrip e) "," = 1 → pyCount (pyStrip e) ":" ≠ 3 →
       getProxyCredsCtq e =
         ⟨(commaParts e).getD 0 "" ++ ":" ++ (commaParts e).getD 1 "", "", ""⟩) ∧
    (pyCount (pyStrip e) "," ≠ 1 → pyCount (pyStrip e) "," ≠ 3 →
       pyCount (pyStrip e) ":" ≠ 3 →
       getProxyCredsCtq e = ⟨pyStrip e, "", ""⟩) ∧
    (pyCount e ":" = 3 →
       getProxyCredsConf e =
         ⟨(pySplit e ":").getD 0 "" ++ ":" ++ (pySplit e ":").getD 1 "",
          (pySplit e ":").getD 2 "", (pySplit e ":").getD 3 ""⟩) ∧
    (pyCount e ":" ≠ 3 → getProxyCredsConf e = ⟨e, "", ""⟩) := by
  have hcm : ((pySplit (pyStrip e) ",").map pyStrip).length = pyCount (pyStrip e) "," + 1 := by
    rw [List.length_map, pySplit_length_eq]
  have hcl : ((pySplit (pyStrip e) ":").map pyStrip).length = pyCount (pyStrip e) ":" + 1 := by
    rw [List.length_map, pySplit_length_eq]
  refine ⟨?_, ?_, ?_, ?_, ?_, ?_⟩
  · intro h3
    simp only [getProxyCredsCtq]
    rw [if_pos h3]
    rw [show (pySplit (pyStrip e) ",").map pyStrip =
      [(commaParts e).getD 0 "", (commaParts e).getD 1 "",
       (commaParts e).getD 2 "", (commaParts e).getD 3 ""] from listLen4 _ (by omega)]
  · intro hne h3
    simp only [getProxyCredsCtq]
    rw [if_neg hne, if_pos h3]
    rw [show (pySplit (pyStrip e) ":").map pyStrip =
      [(colonParts e).getD 0 "", (colonParts e).getD 1 "",
       (colonParts e).getD 2 "", (colonParts e).getD 3 ""] from listLen4 _ (by omega)]
  · intro h1 hc3
    simp only [getProxyCredsCtq]
    rw [if_neg (by omega), if_neg hc3, if_neg (by omega)]
    rw [show (pySplit (pyStrip e) ",").map pyStrip =
      [(commaParts e).getD 0 "", (commaParts e).getD 1 ""] from listLen2 _ (by omega)]
  · intro h1 h3 hc3
    simp only [getProxyCredsCtq]
    rw [if_neg (by omega), if_neg hc3, if_neg (by omega)]
    have hlen : ((pySplit (pyStrip e) ",").map pyStrip).length ≠ 2 ∧
        ((pySplit (pyStrip e) ",").map pyStrip).length ≠ 4 := by omega
    cases hP : (pySplit (pyStrip e) ",").map pyStrip with
    | nil => rfl
    | cons a t1 =>
      cases t1 with
      | nil => rfl
      | cons b t2 =>
        cases t2 with
        | nil => rw [hP] at hlen; simp at hlen
        | cons c t3 =>
          cases t3 with
          | nil => rfl
          | cons d t4 =>
            cases t4 with
            | nil => rw [hP] at hlen; simp at hlen
            | cons x t5 => rfl
  · intro h3
    simp only [getProxyCredsConf]
    rw [show pySplit e ":" =
      [(pySplit e ":").getD 0 "", (pySplit e ":").getD 1 "",
       (pySplit e ":").getD 2 "", (pySplit e ":").getD 3 ""] from
      listLen4 _ (by rw [pySplit_length_eq]; omega)]
    rfl
  · intro h3
    have hlen : (pySplit e ":").length ≠ 4 := by rw [pySplit_length_eq]; omega
    simp only [getProxyCredsConf]
    cases hP : pySplit e ":" with
    | nil => rfl
    | cons a t1 =>
      cases t1 with
      | nil => rfl
      | cons b t2 =>
        cases t2 with
        | nil => rfl
        | cons c t3 =>
          cases t3 with
          | nil => rfl
          | cons d t4 =>
            cases t4 with
            | nil => rw [hP] at hlen; simp at hlen
            | cons x t5 => rfl

/-- C8 witness: a colon-layout entry parses into authenticated
credentials through the ctq spider's parser. -/
theorem c8_witness :
    getProxyCredsCtq "1.2.3.4:8080:u:p" =
      ⟨(colonParts "1.2.3.4:8080:u:p").getD 0 "" ++ ":" ++
         (colonParts "1.2.3.4:8080:u:p").getD 1 "",
       (colonParts "1.2.3.4:8080:u:p").getD 2 "",
       (colonParts "1.2.3.4:8080:u:p").getD 3 ""⟩ :=
  (c8_cred_layouts "1.2.3.4:8080:u:p").2.1 (by decide) (by decide)

/-- C9 counterexample: a CSV whose only column is `Neq_numbers` (or any
other non-`neq`-named sole column) drives no lookups in the ctq
spider — its loader recognises only `NEQ`/case-insensitive `neq` —
while the confirmation spider's loader does locate the column. -/
theorem c9_counterexample_ctq_loader_not_flexible :
    ctqRowNeq [("Neq_numbers", "1234567890")] = none ∧
    loadNeqsFromFile [[("Neq_numbers", "1234567890")]] = [] ∧
    loadNeqsConf ["Neq_numbers"] [[("Neq_numbers", "1234567890")]] = ["1234567890"] ∧
    ctqRowNeq [("ID", "1234567890")] = none := by
  refine ⟨by decide, by decide, by decide, by decide⟩

/-- C9 amended: the confirmation spider locates the NEQ column
flexibly — an accepted name such as `Neq_numbers`, any header
containing `neq` case-insensitively, or the sole column of a
single-column CSV — and that column's stripped non-empty values drive
the lookups.  The ctq spider's CSV loader instead accepts only a
column named exactly `NEQ` or matching `neq` case-insensitively; it
has no `Neq_numbers` and no sole-column fallback. -/
theorem c9_neq_column_detection (name v : String) (h : pyStrip v ≠ "") :
    (ctqRowNeq [(name, v)] =
       if name = "NEQ" ∨ (name ≠ "" ∧ pyStrip (pyLower name) = "neq")
       then some (pyStrip v) else none) ∧
    findNeqColumn [name] = some name ∧
    findNeqColumn ["ID", "Neq_numbers"] = some "Neq_numbers" ∧
    findNeqColumn ["ID", "the nEq column"] = some "the nEq column" ∧
    confRowValue name [(name, v)] = some (pyStrip v) := by
  have hv : v ≠ "" := fun he => h (by rw [he]; rfl)
  refine ⟨?_, ?_, by decide, by decide, ?_⟩
  · by_cases hn : name = "NEQ"
    · simp [ctqRowNeq, hn, hv, h]
    · by_cases hm : name ≠ "" ∧ pyStrip (pyLower name) = "neq"
      · simp [ctqRowNeq, hn, hm.1, hm.2, hv, h]
      · rw [Decidable.not_and_iff_or_not] at hm
        rcases hm with hm | hm
        · simp at hm
          simp [ctqRowNeq, hn, hm]
        · simp [ctqRowNeq, hn, hm]
  · simp [findNeqColumn]
    split_ifs <;> rfl
  · simp [confRowValue, h]

/-- C9 witness: a `NEQ`-headed single-column row is accepted by both
loaders, value stripped. -/
theorem c9_witness :
    (ctqRowNeq [("NEQ", " 123 ")] =
       if "NEQ" = "NEQ" ∨ ("NEQ" ≠ "" ∧ pyStrip (pyLower "NEQ") = "neq")
       then some (pyStrip " 123 ") else none) ∧
    findNeqColumn ["NEQ"] = some "NEQ" ∧
    findNeqColumn ["ID", "Neq_numbers"] = some "Neq_numbers" ∧
    findNeqColumn ["ID", "the nEq column"] = some "the nEq column" ∧
    confRowValue "NEQ" [("NEQ", " 123 ")] = some (pyStrip " 123 ") :=
  c9_neq_column_detection "NEQ" " 123 " (by decide)

theorem cyclicFind_mem (n start : Nat) (avail : List Nat) (i : Nat)
    (hi : i ∈ avail) (hin : i < n) : cyclicFind n start avail ∈ avail := by
  have hn : 0 < n := Nat.lt_of_le_of_lt (Nat.zero_le i) hin
  unfold cyclicFind
  cases hf : (List.range n).find? (fun k => decide ((start + k) % n ∈ avail)) with
  | some k =>
    have hp := List.find?_some hf
    simpa using hp
  | none =>
    exfalso
    have hqd := Nat.div_add_mod start n
    have hmlt : start % n < n := Nat.mod_lt _ hn
    have hnone := List.find?_eq_none.mp hf
    by_cases hle : start % n ≤ i
    · have hklt : i - start % n < n := by omega
      have hkey : (start + (i - start % n)) % n = i := by
        have heq : start + (i - start % n) = i + n * (start / n) := by omega
        rw [heq, Nat.add_mul_mod_self_left, Nat.mod_eq_of_lt hin]
      have hcontra := hnone _ (List.mem_range.mpr hklt)
      simp [hkey, hi] at hcontra
    · have hklt : n + i - start % n < n := by omega
      have hkey : (start + (n + i - start % n)) % n = i := by
        have hmul : n * (start / n + 1) = n * (start / n) + n := by ring
        have heq : start + (n + i - start % n) = i + n * (start / n + 1) := by omega
        rw [heq, Nat.add_mul_mod_self_left, Nat.mod_eq_of_lt hin]
      have hcontra := hnone _ (List.mem_range.mpr hklt)
      simp [hkey, hi] at hcontra

theorem cyclicFind_head (n start : Nat) (avail : List Nat) (hn : 0 < n)
    (hmem : start % n ∈ avail) : cyclicFind n start avail = start % n := by
  unfold cyclicFind
  have h0 : (List.range n).find? (fun k => decide ((start + k) % n ∈ avail)) = some 0 := by
    obtain ⟨m, rfl⟩ : ∃ m, n = m + 1 := ⟨n - 1, by omega⟩
    rw [List.range_succ_eq_map, List.find?_cons]
    simp [hmem]
  rw [h0]
  simp

theorem mem_availableIdx (s : PoolState) (t th i : Nat) (h : i ∈ availableIdx s t th) :
    i < s.proxyList.length ∧
    (statsOf s.stats (s.proxyList.getD i "")).sleepUntil ≤ t ∧
    (statsOf s.stats (s.proxyList.getD i "")).consecErrors < th := by
  unfold availableIdx at h
  have h1 := List.mem_filter.mp h
  have h2 := h1.2
  simp only [Bool.and_eq_true, decide_eq_true_eq] at h2
  exact ⟨List.mem_range.mp h1.1, h2.1, h2.2⟩

/-- C4 counterexample: with both entries of a two-proxy pool cooling
down (no entry qualifies at time 5) and the cursor at index 0,
`ProxyRotationMiddleware.get_next_proxy` resets the pool but returns
`"p1"` — the next round-robin entry — not the first entry `"p0"` the
claim promises. -/
theorem c4_counterexample_next_not_first :
    availableIdx exhaustedPool 5 5 = [] ∧
    (getNextProxy exhaustedPool 5).1 = some "p1" ∧
    exhaustedPool.proxyList.getD 0 "" = "p0" := by
  refine ⟨by decide, by decide, by decide⟩

/-- C4 amended: whenever at least one pool entry is neither cooling
down at time `t` nor at/above the consecutive-error threshold (3 for
`get_available_proxy`, 5 for `get_next_proxy`), the selected proxy is
such an entry — in particular its cooldown timestamp is not in the
future.  When no entry qualifies, both middlewares reset every entry's
error counter and cooldown to zero (the health map becomes the default
map) and return without blocking: `get_available_proxy` returns the
first entry, while `get_next_proxy` returns the next round-robin entry
after the cursor. -/
theorem c4_proxy_selection (s : PoolState) (t : Nat) (p : String) :
    ((getAvailableProxy s t).1 = some p → availableIdx s t 3 ≠ [] →
       (statsOf s.stats p).sleepUntil ≤ t ∧ (statsOf s.stats p).consecErrors < 3) ∧
    ((getNextProxy s t).1 = some p → availableIdx s t 5 ≠ [] →
       (statsOf s.stats p).sleepUntil ≤ t ∧ (statsOf s.stats p).consecErrors < 5) ∧
    (availableIdx s t 3 = [] → s.proxyList ≠ [] →
       (getAvailableProxy s t).1 = some (s.proxyList.getD 0 "") ∧
       (getAvailableProxy s t).2.stats = []) ∧
    (availableIdx s t 5 = [] → s.proxyList ≠ [] →
       (getNextProxy s t).1 =
         some (s.proxyList.getD ((s.currentIndex + 1) % s.proxyList.length) "") ∧
       (getNextProxy s t).2.stats = []) := by
  refine ⟨?_, ?_, ?_, ?_⟩
  · intro hp hne
    obtain ⟨i, hi⟩ := List.exists_mem_of_ne_nil _ hne
    have him := mem_availableIdx s t 3 i hi
    have hpos : 0 < s.proxyList.length := Nat.lt_of_le_of_lt (Nat.zero_le i) him.1
    have hemp : s.proxyList.isEmpty = false := by
      rw [List.isEmpty_eq_false]
      exact List.ne_nil_of_length_pos hpos
    have hae : (availableIdx s t 3).isEmpty = false := by
      rw [List.isEmpty_eq_false]; exact hne
    simp only [getAvailableProxy, hemp, hae, Bool.false_eq_true, if_false] at hp
    have hidx := cyclicFind_mem s.proxyList.length
      ((s.currentIndex + 1) % s.proxyList.length) (availableIdx s t 3) i hi him.1
    have him2 := mem_availableIdx s t 3 _ hidx
    rw [← Option.some.inj hp]
    exact ⟨him2.2.1, him2.2.2⟩
  · intro hp hne
    obtain ⟨i, hi⟩ := List.exists_mem_of_ne_nil _ hne
    have him := mem_availableIdx s t 5 i hi
    have hpos : 0 < s.proxyList.length := Nat.lt_of_le_of_lt (Nat.zero_le i) him.1
    have hemp : s.proxyList.isEmpty = false := by
      rw [List.isEmpty_eq_false]
      exact List.ne_nil_of_length_pos hpos
    have hae : (availableIdx s t 5).isEmpty = false := by
      rw [List.isEmpty_eq_false]; exact hne
    simp only [getNextProxy, hemp, hae, Bool.false_eq_true, if_false] at hp
    have hidx := cyclicFind_mem s.proxyList.length
      ((s.currentIndex + 1) % s.proxyList.length) (availableIdx s t 5) i hi him.1
    have him2 := mem_availableIdx s t 5 _ hidx
    rw [← Option.some.inj hp]
    exact ⟨him2.2.1, him2.2.2⟩
  · intro hav hnil
    have hpos : 0 < s.proxyList.length := List.length_pos.mpr hnil
    have hemp : s.proxyList.isEmpty = false := by
      rw [List.isEmpty_eq_false]; exact hnil
    have h0 : cyclicFind s.proxyList.length
        ((s.currentIndex + 1) % s.proxyList.length) [0] = 0 := by
      have hm := cyclicFind_mem s.proxyList.length
        ((s.currentIndex + 1) % s.proxyList.length) [0] 0 (by simp) hpos
      simpa using hm
    simp only [getAvailableProxy, hemp, hav, Bool.false_eq_true, if_false,
      List.isEmpty_nil, if_true, h0]
    constructor <;> first | rfl | trivial
  · intro hav hnil
    have hpos : 0 < s.proxyList.length := List.length_pos.mpr hnil
    have hemp : s.proxyList.isEmpty = false := by
      rw [List.isEmpty_eq_false]; exact hnil
    have hlt : (s.currentIndex + 1) % s.proxyList.length < s.proxyList.length :=
      Nat.mod_lt _ hpos
    have hmm : (s.currentIndex + 1) % s.proxyList.length % s.proxyList.length =
        (s.currentIndex + 1) % s.proxyList.length := Nat.mod_mod_of_dvd _ dvd_rfl
    have h0 : cyclicFind s.proxyList.length
        ((s.currentIndex + 1) % s.proxyList.length) (List.range s.proxyList.length) =
        (s.currentIndex + 1) % s.proxyList.length := by
      rw [cyclicFind_head _ _ _ hpos (by rw [hmm]; exact List.mem_range.mpr hlt)]
      exact hmm
    simp only [getNextProxy, hemp, hav, Bool.false_eq_true, if_false,
      List.isEmpty_nil, if_true, h0]
    constructor <;> first | rfl | trivial

/-- C4 witness: concrete applications — a healthy two-proxy pool yields
a qualifying entry, and the exhausted pool triggers the resetting
fallbacks of both middlewares. -/
theorem c4_witness :
    ((statsOf healthyPool.stats "q1").sleepUntil ≤ 5 ∧
       (statsOf healthyPool.stats "q1").consecErrors < 3) ∧
    ((statsOf healthyPool.stats "q1").sleepUntil ≤ 5 ∧
       (statsOf healthyPool.stats "q1").consecErrors < 5) ∧
    ((getAvailableProxy exhaustedPool 5).1 = some (exhaustedPool.proxyList.getD 0 "") ∧
       (getAvailableProxy exhaustedPool 5).2.stats = []) ∧
    ((getNextProxy exhaustedPool 5).1 =
       some (exhaustedPool.proxyList.getD
         ((exhaustedPool.currentIndex + 1) % exhaustedPool.proxyList.length) "") ∧
       (getNextProxy exhaustedPool 5).2.stats = []) :=
  ⟨(c4_proxy_selection healthyPool 5 "q1").1 (by decide) (by decide),
   (c4_proxy_selection healthyPool 5 "q1").2.1 (by decide) (by decide),
   (c4_proxy_selection exhaustedPool 5 "p0").2.2.1 (by decide) (by decide),
   (c4_proxy_selection exhaustedPool 5 "p1").2.2.2 (by decide) (by decide)⟩

end Req
